import Mathlib

/-!
Verification of the rule-based HTML analysis engine of the seo-checker
repository: the Document Analyzer (`analyzeHtmlContent` in
src/lib/html-analyzer.ts) and the Element Analyzer (`analyzePageElements`
in src/lib/element-analysis.ts), shallowly embedded over a DOM-tree model.

The HTML parser (jsdom) is an external collaborator: it turns an arbitrary
input string into a document tree.  The embedding therefore quantifies over
parsed documents (`Doc` below); the analyzers are translated statement by
statement from the TypeScript source.  The WHATWG URL constructor used by
the link classifier is likewise external; `urlHostname` below models it,
returning `none` exactly where the constructor throws.
-/

namespace SeoChecker

/-- A DOM node: an element with a (lowercase) tag name, an attribute list in
document order, and children; or a text node. -/
inductive Node where
  | elem (tag : String) (attrs : List (String × String)) (children : List Node)
  | text (s : String)

/-- A parsed document: the list of root nodes in document order. -/
abbrev Doc := List Node

/-- The position of a node in the tree: the path of child indices from the
root list.  Two distinct nodes of one document have distinct positions, and
DOM `Node.contains` (ancestor-or-self) is path-prefix on positions. -/
abbrev Pos := List Nat

/-- `getAttribute`: first attribute with the given name, `none` when absent
(the DOM returns null). -/
def Node.getAttr? : Node → String → Option String
  | .elem _ attrs _, name => (attrs.find? (fun a => a.1 == name)).map (·.2)
  | .text _, _ => none

/-- `hasAttribute`. -/
def Node.hasAttr (n : Node) (name : String) : Bool :=
  (n.getAttr? name).isSome

/-- Tag name of an element (empty for text nodes, which are never queried). -/
def Node.tag : Node → String
  | .elem t _ _ => t
  | .text _ => ""

mutual
/-- `textContent`: concatenation of all descendant text, in document order. -/
def Node.textContent : Node → String
  | .text s => s
  | .elem _ _ cs => textContentList cs

def textContentList : List Node → String
  | [] => ""
  | n :: ns => n.textContent ++ textContentList ns
end

mutual
/-- All element nodes of a subtree in pre-order (document order), paired with
their positions. -/
def elemsNode (p : Pos) : Node → List (Pos × Node)
  | .text _ => []
  | .elem t a cs => (p, .elem t a cs) :: elemsChildren p 0 cs

def elemsChildren (p : Pos) (i : Nat) : List Node → List (Pos × Node)
  | [] => []
  | c :: cs => elemsNode (p ++ [i]) c ++ elemsChildren p (i + 1) cs
end

/-- All elements of a document in document order. -/
def Doc.elems (d : Doc) : List (Pos × Node) :=
  elemsChildren [] 0 d

/-- `querySelectorAll` for the simple selectors the analyzers use: all
elements satisfying a predicate, in document order. -/
def qAll (d : Doc) (sel : Node → Bool) : List (Pos × Node) :=
  d.elems.filter (fun e => sel e.2)

/-- `querySelector`: the first match in document order. -/
def qFirst (d : Doc) (sel : Node → Bool) : Option (Pos × Node) :=
  (qAll d sel).head?

/-! String operations of the JavaScript standard library, implemented over
character lists (the byte-position-based core versions do not reduce in the
kernel). -/

/-- JavaScript `s.startsWith(pre)`. -/
def strStartsWith (s pre : String) : Bool :=
  pre.data.isPrefixOf s.data

/-- JavaScript `s.trim()`: strip leading and trailing whitespace. -/
def strTrim (s : String) : String :=
  String.mk
    (((s.data.dropWhile Char.isWhitespace).reverse.dropWhile Char.isWhitespace).reverse)

/-- JavaScript `s.toLowerCase()` (ASCII). -/
def strToLower (s : String) : String :=
  String.mk (s.data.map Char.toLower)

/-- JavaScript `s.toUpperCase()` (ASCII). -/
def strToUpper (s : String) : String :=
  String.mk (s.data.map Char.toUpper)

/-- Whether `pat` occurs as a contiguous subsequence of `l`. -/
def listContainsSub (pat : List Char) : List Char → Bool
  | [] => pat.isPrefixOf []
  | x :: xs => pat.isPrefixOf (x :: xs) || listContainsSub pat xs

/-- Replace the first occurrence of `pat` (JavaScript `s.replace(pat, repl)`
with string arguments replaces only the first). -/
def replaceFirstChars (pat repl : List Char) : List Char → List Char
  | [] => if pat.isPrefixOf ([] : List Char) then repl else []
  | x :: xs =>
    if pat.isPrefixOf (x :: xs) then repl ++ (x :: xs).drop pat.length
    else x :: replaceFirstChars pat repl xs

/-- Split on a character predicate (used for the whitespace-separated class
attribute). -/
def splitByPred (p : Char → Bool) : List Char → List (List Char)
  | [] => [[]]
  | x :: xs =>
    if p x then [] :: splitByPred p xs
    else
      match splitByPred p xs with
      | [] => [[x]]
      | h :: t => (x :: h) :: t

/-- JavaScript `parseInt` on an all-digit string. -/
def strToDigits? (s : String) : Option Nat :=
  if s.data ≠ [] ∧ s.data.all Char.isDigit then
    some (s.data.foldl (fun n c => n * 10 + (c.toNat - '0'.toNat)) 0)
  else none

/-- Selector `tag`. -/
def isTag (t : String) (n : Node) : Bool :=
  n.tag == t

/-- Selector `meta[name="v"]`. -/
def metaName (v : String) (n : Node) : Bool :=
  n.tag == "meta" && n.getAttr? "name" == some v

/-- Selector `meta[property^="og:"]`. -/
def ogMeta (n : Node) : Bool :=
  n.tag == "meta" && strStartsWith ((n.getAttr? "property").getD "") "og:"

/-- Selector `h1, h2, h3, h4, h5, h6`. -/
def isHeading (n : Node) : Bool :=
  n.tag == "h1" || n.tag == "h2" || n.tag == "h3" ||
  n.tag == "h4" || n.tag == "h5" || n.tag == "h6"

/-- Selector `img[alt]:not([alt=""])`. -/
def imgAltNonEmpty (n : Node) : Bool :=
  n.tag == "img" && (match n.getAttr? "alt" with
    | some a => a != ""
    | none => false)

/-- Selector `img[alt=""]`. -/
def imgAltEmpty (n : Node) : Bool :=
  n.tag == "img" && n.getAttr? "alt" == some ""

/-- Selector `a[href]`. -/
def linkWithHref (n : Node) : Bool :=
  n.tag == "a" && (n.getAttr? "href").isSome

/-- Selector `div[role="v"]`. -/
def divRole (v : String) (n : Node) : Bool :=
  n.tag == "div" && n.getAttr? "role" == some v

/-- The class list of an element: the `class` attribute split on whitespace. -/
def classListOf (n : Node) : List String :=
  ((splitByPred Char.isWhitespace ((n.getAttr? "class").getD "").data).map String.mk).filter
    (fun s => s ≠ "")

/-- Selector `.c` (class selector). -/
def hasClass (c : String) (n : Node) : Bool :=
  (classListOf n).contains c

/-- Selector `script[type="application/ld+json"]`. -/
def ldJsonScript (n : Node) : Bool :=
  n.tag == "script" && n.getAttr? "type" == some "application/ld+json"

/-- Selector `[itemscope], [itemprop]`. -/
def microdata (n : Node) : Bool :=
  n.hasAttr "itemscope" || n.hasAttr "itemprop"

/-- Substring test, JavaScript `String.prototype.includes`. -/
def strContains (s pat : String) : Bool :=
  listContainsSub pat.data s.data

/-- JavaScript `s.replace(pat, repl)`: replace the first occurrence only. -/
def replaceFirst (s pat repl : String) : String :=
  String.mk (replaceFirstChars pat.data repl.data s.data)

/-- Model of the WHATWG URL constructor used at
`new URL(url).hostname` (html-analyzer.ts line 107): the hostname of an
absolute http(s) URL, and `none` exactly where the constructor throws
(no recognizable scheme/host, e.g. `new URL("not-a-url")`). -/
def urlHostname (url : String) : Option String :=
  let rest :=
    if strStartsWith url "https://" then some (url.drop 8)
    else if strStartsWith url "http://" then some (url.drop 7)
    else none
  match rest with
  | none => none
  | some r =>
    let host := String.mk
      (r.data.takeWhile (fun c => c ≠ '/' && c ≠ ':' && c ≠ '?' && c ≠ '#'))
    if host = "" then none else some host

/-! ## Document Analyzer (src/lib/html-analyzer.ts, analyzeHtmlContent) -/

/-- Issue severity. -/
inductive Severity where
  | high
  | medium
  | low
deriving DecidableEq

/-- A document-level Issue. -/
structure Issue where
  id : Nat
  severity : Severity
  title : String
  description : String
  howToFix : String
deriving DecidableEq

/-- Heading counts and the heading outline. -/
structure Headings where
  h1 : Nat
  h2 : Nat
  h3 : Nat
  h4 : Nat
  h5 : Nat
  h6 : Nat
  outline : List String
deriving DecidableEq

/-- Image counts partitioned by alt attribute. -/
structure Images where
  total : Nat
  withAlt : Nat
  withoutAlt : Nat
  withEmptyAlt : Nat
deriving DecidableEq

/-- Link counts. -/
structure Links where
  total : Nat
  internal : Nat
  external : Nat
deriving DecidableEq

/-- The Document Analyzer result. -/
structure HtmlAnalysisResult where
  title : String
  description : String
  keywords : List String
  ogTags : List (String × String)
  issues : List Issue
  headings : Headings
  images : Images
  links : Links
deriving DecidableEq

/-- JavaScript object property assignment on a string-keyed record: overwrite
the first existing entry, else append. -/
def recordSet (l : List (String × String)) (k v : String) : List (String × String) :=
  match l with
  | [] => [(k, v)]
  | (k', v') :: rest =>
    if k' == k then (k', v) :: rest else (k', v') :: recordSet rest k v

/-- The analyzer state while the checks run: the issues pushed so far and the
value of the `id` counter (`let id = 1`, `id: id++`). -/
structure DState where
  issues : List Issue
  nextId : Nat

/-- Content of an issue, without its id. -/
structure IssueContent where
  severity : Severity
  title : String
  description : String
  howToFix : String
deriving DecidableEq

/-- `issues.push({id: id++, severity, title, description, howToFix})`. -/
def DState.push (st : DState) (c : IssueContent) : DState :=
  { issues := st.issues ++ [⟨st.nextId, c.severity, c.title, c.description, c.howToFix⟩],
    nextId := st.nextId + 1 }

/-- The metadata the nine checks read, extracted from the document. -/
structure DocExtract where
  title : String
  metaDescription : String
  h1 : Nat
  h2 : Nat
  h3 : Nat
  imagesTotal : Nat
  imagesWithoutAlt : Nat
  linksWithoutText : Nat
  hasViewport : Bool
  hasStructuredData : Bool

/-- The issue contents of the nine checks, named so the check functions and
the decomposition lemmas share one copy of each text. -/
def titleMissingC : IssueContent :=
  ⟨.high, "Missing page title",
   "Your page is missing a title tag, which is critical for SEO.",
   "Add a descriptive title tag within the <head> section of your HTML."⟩

def titleShortC (len : Nat) : IssueContent :=
  ⟨.medium, "Title too short",
   "Your title tag is only " ++ toString len ++
     " characters long, which may not be descriptive enough.",
   "Create a more descriptive title between 50-60 characters that includes key terms."⟩

def titleLongC (len : Nat) : IssueContent :=
  ⟨.low, "Title too long",
   "Your title tag is " ++ toString len ++
     " characters long, which may be truncated in search results.",
   "Keep your title under 60 characters while maintaining key information."⟩

def metaMissingC : IssueContent :=
  ⟨.high, "Missing meta description",
   "Your page is missing a meta description, which is important for SEO and click-through rates in search results.",
   "Add a meta description tag with a compelling summary of your page (around 150-160 characters)."⟩

def metaShortC (len : Nat) : IssueContent :=
  ⟨.medium, "Meta description too short",
   "Your meta description is only " ++ toString len ++
     " characters long, which may not adequately describe your page.",
   "Write a more descriptive meta description between 120-158 characters."⟩

def metaLongC (len : Nat) : IssueContent :=
  ⟨.low, "Meta description too long",
   "Your meta description is " ++ toString len ++
     " characters long and may be truncated in search results.",
   "Keep your meta description under 158 characters while maintaining key information."⟩

def h1MissingC : IssueContent :=
  ⟨.high, "Missing H1 heading",
   "Your page does not have an H1 heading, which is important for page structure and SEO.",
   "Add a descriptive H1 heading that contains your primary keyword."⟩

def h1MultipleC (n : Nat) : IssueContent :=
  ⟨.medium, "Multiple H1 headings",
   "Your page has " ++ toString n ++
     " H1 headings. It is generally best to have a single H1.",
   "Use only one H1 heading as the main title of your page and use H2-H6 for subheadings."⟩

def h2WithoutH1C : IssueContent :=
  ⟨.medium, "H2 without H1",
   "Your page uses H2 headings without an H1 heading.",
   "Add an H1 heading as the main title of your page before using H2 headings."⟩

def h3WithoutH2C : IssueContent :=
  ⟨.low, "H3 without H2",
   "Your page uses H3 headings without H2 headings, which creates a gap in the heading hierarchy.",
   "Maintain proper heading hierarchy (H1 → H2 → H3) to improve page structure."⟩

def imagesAltC (without total : Nat) : IssueContent :=
  ⟨.medium, "Images missing alt text",
   toString without ++ " out of " ++ toString total ++
     " images are missing alt text, which is important for accessibility and SEO.",
   "Add descriptive alt attributes to all images that describe the content and function of the image."⟩

def linksTextC (n : Nat) : IssueContent :=
  ⟨.medium, "Links without text",
   toString n ++
     " links on your page have no text content, which is bad for accessibility and SEO.",
   "Add descriptive text to all links to help users and search engines understand their purpose."⟩

def viewportC : IssueContent :=
  ⟨.high, "Missing viewport meta tag",
   "Your page is missing the viewport meta tag, which is essential for mobile responsiveness.",
   "Add <meta name=\"viewport\" content=\"width=device-width, initial-scale=1\"> to the <head> section."⟩

def structuredC : IssueContent :=
  ⟨.medium, "Missing structured data",
   "Your page does not appear to use structured data (schema.org) markup.",
   "Implement relevant schema.org markup to enhance your search engine listings with rich results."⟩

/-- Check 1: title missing / too short / too long. -/
def titleCheck (e : DocExtract) (st : DState) : DState :=
  if e.title == "" then st.push titleMissingC
  else if e.title.length < 10 then st.push (titleShortC e.title.length)
  else if e.title.length > 60 then st.push (titleLongC e.title.length)
  else st

/-- Check 2: meta description missing / too short / too long. -/
def metaDescriptionCheck (e : DocExtract) (st : DState) : DState :=
  if e.metaDescription == "" then st.push metaMissingC
  else if e.metaDescription.length < 50 then st.push (metaShortC e.metaDescription.length)
  else if e.metaDescription.length > 160 then st.push (metaLongC e.metaDescription.length)
  else st

/-- Check 3: H1 count (0 is high, more than one is medium). -/
def h1Check (e : DocExtract) (st : DState) : DState :=
  if e.h1 == 0 then st.push h1MissingC
  else if e.h1 > 1 then st.push (h1MultipleC e.h1)
  else st

/-- Check 4: H2 present with zero H1. -/
def h2WithoutH1Check (e : DocExtract) (st : DState) : DState :=
  if e.h1 == 0 && e.h2 > 0 then st.push h2WithoutH1C else st

/-- Check 5: H3 present with zero H2. -/
def h3WithoutH2Check (e : DocExtract) (st : DState) : DState :=
  if e.h2 == 0 && e.h3 > 0 then st.push h3WithoutH2C else st

/-- Check 6: images missing alt text. -/
def imagesAltCheck (e : DocExtract) (st : DState) : DState :=
  if e.imagesTotal > 0 && e.imagesWithoutAlt > 0 then
    st.push (imagesAltC e.imagesWithoutAlt e.imagesTotal)
  else st

/-- Check 7: links without text content. -/
def linksTextCheck (e : DocExtract) (st : DState) : DState :=
  if e.linksWithoutText > 0 then st.push (linksTextC e.linksWithoutText) else st

/-- Check 8: missing viewport meta tag. -/
def viewportCheck (e : DocExtract) (st : DState) : DState :=
  if !e.hasViewport then st.push viewportC else st

/-- Check 9: missing structured data. -/
def structuredDataCheck (e : DocExtract) (st : DState) : DState :=
  if !e.hasStructuredData then st.push structuredC else st

/-- The nine checks, in the source order. -/
def docChecks (e : DocExtract) (st : DState) : DState :=
  structuredDataCheck e (viewportCheck e (linksTextCheck e (imagesAltCheck e
    (h3WithoutH2Check e (h2WithoutH1Check e (h1Check e
      (metaDescriptionCheck e (titleCheck e st))))))))

/-- `document.querySelector('title')?.textContent || ''`. -/
def docTitle (d : Doc) : String :=
  ((qFirst d (isTag "title")).map (fun pe => pe.2.textContent)).getD ""

/-- `document.querySelector('meta[name="description"]')?.getAttribute('content') || ''`. -/
def docMetaDescription (d : Doc) : String :=
  ((qFirst d (metaName "description")).bind (fun pe => pe.2.getAttr? "content")).getD ""

/-- The keywords list: the `meta[name="keywords"]` content split on commas,
trimmed, empty tokens discarded. -/
def docKeywords (d : Doc) : List String :=
  let metaKeywords :=
    ((qFirst d (metaName "keywords")).bind (fun pe => pe.2.getAttr? "content")).getD ""
  (((splitByPred (fun c => c = ',') metaKeywords.data).map String.mk).map
      (fun k => strTrim k)).filter (fun k => k ≠ "")

/-- The Open Graph record: every `meta[property^="og:"]` with truthy
`property` and `content`, keyed by the property with the first `og:` removed. -/
def docOgTags (d : Doc) : List (String × String) :=
  (qAll d ogMeta).foldl
    (fun acc pe =>
      match pe.2.getAttr? "property", pe.2.getAttr? "content" with
      | some p, some c =>
        if p != "" && c != "" then recordSet acc (replaceFirst p "og:" "") c else acc
      | _, _ => acc) []

/-- The heading outline entries: `TAGNAME: trimmed text or 'Empty heading'`. -/
def docHeadingOutline (d : Doc) : List String :=
  (qAll d isHeading).map (fun pe =>
    strToUpper pe.2.tag ++ ": " ++
      (if strTrim pe.2.textContent == "" then "Empty heading"
       else strTrim pe.2.textContent))

/-- The heading counts and outline. -/
def docHeadings (d : Doc) : Headings :=
  { h1 := (qAll d (isTag "h1")).length
    h2 := (qAll d (isTag "h2")).length
    h3 := (qAll d (isTag "h3")).length
    h4 := (qAll d (isTag "h4")).length
    h5 := (qAll d (isTag "h5")).length
    h6 := (qAll d (isTag "h6")).length
    outline := docHeadingOutline d }

/-- The image counts. -/
def docImages (d : Doc) : Images :=
  let total := (qAll d (isTag "img")).length
  let withAlt := (qAll d imgAltNonEmpty).length
  let withEmptyAlt := (qAll d imgAltEmpty).length
  { total := total
    withAlt := withAlt
    withoutAlt := total - withAlt - withEmptyAlt
    withEmptyAlt := withEmptyAlt }

/-- The href values of all `a[href]` elements (`getAttribute('href') || ''`). -/
def docHrefs (d : Doc) : List String :=
  (qAll d linkWithHref).map (fun pe => (pe.2.getAttr? "href").getD "")

/-- The number of `a[href]` links with empty or whitespace-only text content. -/
def docLinksWithoutText (d : Doc) : Nat :=
  ((qAll d linkWithHref).filter (fun pe => strTrim pe.2.textContent == "")).length

/-- Whether the document has a `meta[name="viewport"]`. -/
def docHasViewport (d : Doc) : Bool :=
  (qFirst d (metaName "viewport")).isSome

/-- Whether the document has structured data: a JSON-LD script or any element
with `itemscope` or `itemprop`. -/
def docHasStructuredData (d : Doc) : Bool :=
  (qFirst d ldJsonScript).isSome || (qAll d microdata).length > 0

/-- The extracted metadata the checks read. -/
def docExtract (d : Doc) : DocExtract :=
  { title := docTitle d
    metaDescription := docMetaDescription d
    h1 := (qAll d (isTag "h1")).length
    h2 := (qAll d (isTag "h2")).length
    h3 := (qAll d (isTag "h3")).length
    imagesTotal := (docImages d).total
    imagesWithoutAlt := (docImages d).withoutAlt
    linksWithoutText := docLinksWithoutText d
    hasViewport := docHasViewport d
    hasStructuredData := docHasStructuredData d }

/-- The issue list of one analysis run: the nine checks applied to a fresh
state with the id counter at 1. -/
def docIssues (d : Doc) : List Issue :=
  (docChecks (docExtract d) ⟨[], 1⟩).issues

/-- Classification of one link inside the `allLinks.forEach` loop.  The URL
constructor is invoked only when the href starts with neither `#` nor `/` and
the reference url is truthy; when it throws the whole analysis throws. -/
inductive LinkClass where
  | internal
  | external
deriving DecidableEq

def classifyLink (url href : String) : Except String (Option LinkClass) :=
  if strStartsWith href "#" || strStartsWith href "/" then .ok (some .internal)
  else if url != "" then
    match urlHostname url with
    | none => .error "TypeError: Invalid URL"
    | some host =>
      if strContains href host then .ok (some .internal)
      else if strStartsWith href "http" then .ok (some .external)
      else .ok none
  else if strStartsWith href "http" then .ok (some .external)
  else .ok none

/-- The internal/external counting loop over the hrefs. -/
def countLinksAux (url : String) (acc : Nat × Nat) : List String → Except String (Nat × Nat)
  | [] => .ok acc
  | h :: rest =>
    match classifyLink url h with
    | .error msg => .error msg
    | .ok (some .internal) => countLinksAux url (acc.1 + 1, acc.2) rest
    | .ok (some .external) => countLinksAux url (acc.1, acc.2 + 1) rest
    | .ok none => countLinksAux url acc rest

/-- `analyzeHtmlContent(htmlContent, url)` over the parsed document.  It is
total except for the link-classification loop, whose URL constructor can
throw; that is the analyzer's only error exit. -/
def analyzeHtmlContent (d : Doc) (url : String) : Except String HtmlAnalysisResult :=
  match countLinksAux url (0, 0) (docHrefs d) with
  | .error msg => .error msg
  | .ok (internal, external) =>
    .ok
      { title := docTitle d
        description := docMetaDescription d
        keywords := docKeywords d
        ogTags := docOgTags d
        issues := docIssues d
        headings := docHeadings d
        images := docImages d
        links := { total := (docHrefs d).length, internal := internal, external := external } }

/-! ## Element Analyzer (src/lib/element-analysis.ts, analyzePageElements) -/

/-- The page section an element is attributed to. -/
inductive Section where
  | header
  | navigation
  | content
  | sidebar
  | footer
  | general
deriving DecidableEq

/-- An element-level issue. -/
structure ElementIssue where
  selector : String
  element : String
  issue : String
  severity : Severity
  recommendation : String
  «section» : Section
deriving DecidableEq

/-- Per-section analysis record.  The score is a JavaScript number that may
go negative before the final clamp, hence `Int`. -/
structure SectionAnalysis where
  name : String
  score : Int
  issues : List ElementIssue
  importance : Nat
deriving DecidableEq

/-- The Element Analyzer result. -/
structure ElementAnalysisResult where
  url : String
  totalElements : Nat
  analyzedElements : Nat
  elementIssues : List ElementIssue
  sectionAnalysis : List SectionAnalysis
deriving DecidableEq

/-- The five resolved landmark regions, each `querySelector` chain resolving
to at most one element (the first match of the first selector that has one):
header: `header`, else `div[role="banner"]`, else `.header`;
navigation: `nav`, else `div[role="navigation"]`;
content: `main`, else `div[role="main"]`, else `.content`;
sidebar: `aside`, else `.sidebar`;
footer: `footer`, else `div[role="contentinfo"]`, else `.footer`. -/
structure Regions where
  header : Option (Pos × Node)
  navigation : Option (Pos × Node)
  content : Option (Pos × Node)
  sidebar : Option (Pos × Node)
  footer : Option (Pos × Node)

def resolveRegions (d : Doc) : Regions :=
  { header := (qFirst d (isTag "header")).orElse (fun _ =>
      (qFirst d (divRole "banner")).orElse (fun _ => qFirst d (hasClass "header")))
    navigation := (qFirst d (isTag "nav")).orElse (fun _ => qFirst d (divRole "navigation"))
    content := (qFirst d (isTag "main")).orElse (fun _ =>
      (qFirst d (divRole "main")).orElse (fun _ => qFirst d (hasClass "content")))
    sidebar := (qFirst d (isTag "aside")).orElse (fun _ => qFirst d (hasClass "sidebar"))
    footer := (qFirst d (isTag "footer")).orElse (fun _ =>
      (qFirst d (divRole "contentinfo")).orElse (fun _ => qFirst d (hasClass "footer"))) }

/-- DOM `sectionElement.contains(element)`: ancestor-or-self containment,
which on positions is path prefix. -/
def regionContains (r : Option (Pos × Node)) (p : Pos) : Bool :=
  match r with
  | none => false
  | some (q, _) => q.isPrefixOf p

/-- `determineSectionForElement`: the regions are tested in the object
insertion order header, navigation, content, sidebar, footer; the first whose
landmark contains the element names the section, else `general`. -/
def determineSectionForElement (rs : Regions) (p : Pos) : Section :=
  if regionContains rs.header p then .header
  else if regionContains rs.navigation p then .navigation
  else if regionContains rs.content p then .content
  else if regionContains rs.sidebar p then .sidebar
  else if regionContains rs.footer p then .footer
  else .general

/-- `getSelector`: tag name, then `#id` when the id is truthy, else the class
list joined with dots when non-empty. -/
def getSelector (n : Node) : String :=
  let idv := (n.getAttr? "id").getD ""
  if idv != "" then n.tag ++ "#" ++ idv
  else if (classListOf n).length > 0 then
    n.tag ++ "." ++ String.intercalate "." (classListOf n)
  else n.tag

/-- `capitalizeFirstLetter`: the explicit section-name table; everything not
among the five section names (in particular `general`) maps to `General`. -/
def capitalizeFirstLetter : Section → String
  | .header => "Header"
  | .navigation => "Navigation"
  | .content => "Main Content"
  | .sidebar => "Sidebar"
  | .footer => "Footer"
  | .general => "General"

/-- Analyzer state: the flat issue list, the six section records, and the two
element counters. -/
structure EState where
  elementIssues : List ElementIssue
  sections : List SectionAnalysis
  analyzed : Nat
  total : Nat

/-- The six pre-seeded section records. -/
def initSections : List SectionAnalysis :=
  [⟨"Header", 100, [], 8⟩, ⟨"Navigation", 100, [], 7⟩, ⟨"Main Content", 100, [], 10⟩,
   ⟨"Sidebar", 100, [], 5⟩, ⟨"Footer", 100, [], 4⟩, ⟨"General", 100, [], 6⟩]

def initES : EState :=
  { elementIssues := [], sections := initSections, analyzed := 0, total := 0 }

/-- Update the first list entry satisfying the predicate (the record
`sectionAnalysis.find(...)` returns, mutated in place). -/
def updateFirst (p : α → Bool) (f : α → α) : List α → List α
  | [] => []
  | x :: xs => if p x then f x :: xs else x :: updateFirst p f xs

/-- Push an issue to the flat list, then find the section record with the
given name and, when found, push the issue there and decrement its score. -/
def addIssueTo (name : String) (penalty : Int) (i : ElementIssue) (st : EState) : EState :=
  { st with
    elementIssues := st.elementIssues ++ [i]
    sections := updateFirst (fun s => s.name == name)
      (fun s => { s with issues := s.issues ++ [i], score := s.score - penalty })
      st.sections }

/-- `analyzedElements++; totalElements++` for the title and meta checks. -/
def bumpBoth (st : EState) : EState :=
  { st with analyzed := st.analyzed + 1, total := st.total + 1 }

def titleMissingIssue : ElementIssue :=
  ⟨"head > title", "Title", "Missing page title", .high,
   "Add a descriptive title tag that includes primary keywords", .header⟩

def titleShortIssue : ElementIssue :=
  ⟨"head > title", "Title", "Title is too short", .medium,
   "Create a more descriptive title between 50-60 characters that includes key terms", .header⟩

def titleLongIssue : ElementIssue :=
  ⟨"head > title", "Title", "Title is too long", .low,
   "Keep your title under 60 characters to avoid truncation in search results", .header⟩

/-- The title check: counters bump unconditionally, then missing (no element
or falsy textContent) is high with a 25 penalty, length under 20 medium with
15, length over 60 low with 10, all against the Header record. -/
def elemTitleStage (t : Option (Pos × Node)) (st : EState) : EState :=
  let st := bumpBoth st
  match t with
  | none => addIssueTo "Header" 25 titleMissingIssue st
  | some pe =>
    if pe.2.textContent == "" then addIssueTo "Header" 25 titleMissingIssue st
    else if pe.2.textContent.length < 20 then addIssueTo "Header" 15 titleShortIssue st
    else if pe.2.textContent.length > 60 then addIssueTo "Header" 10 titleLongIssue st
    else st

def metaMissingIssue : ElementIssue :=
  ⟨"head > meta[name=\"description\"]", "Meta Description", "Missing meta description", .high,
   "Add a compelling meta description between 120-158 characters", .header⟩

def metaShortIssue : ElementIssue :=
  ⟨"head > meta[name=\"description\"]", "Meta Description", "Meta description is too short", .medium,
   "Create a more compelling meta description between 120-158 characters", .header⟩

def metaLongIssue : ElementIssue :=
  ⟨"head > meta[name=\"description\"]", "Meta Description", "Meta description is too long", .low,
   "Keep meta description under 158 characters to avoid truncation", .header⟩

/-- The meta-description check: missing (no element or falsy content) high
with 25, content length under 70 medium with 15, over 160 low with 10. -/
def elemMetaStage (m : Option (Pos × Node)) (st : EState) : EState :=
  let st := bumpBoth st
  match m with
  | none => addIssueTo "Header" 25 metaMissingIssue st
  | some pe =>
    match pe.2.getAttr? "content" with
    | none => addIssueTo "Header" 25 metaMissingIssue st
    | some c =>
      if c == "" then addIssueTo "Header" 25 metaMissingIssue st
      else if c.length < 70 then addIssueTo "Header" 15 metaShortIssue st
      else if c.length > 160 then addIssueTo "Header" 10 metaLongIssue st
      else st

/-- One iteration of the image loop. -/
def imageStep (rs : Regions) (st : EState) (pe : Pos × Node) : EState :=
  let st := { st with analyzed := st.analyzed + 1 }
  if pe.2.hasAttr "alt" then st
  else
    let sec := determineSectionForElement rs pe.1
    addIssueTo (capitalizeFirstLetter sec) 10
      ⟨getSelector pe.2, "Image", "Image missing alt text", .medium,
       "Add descriptive alt text to the image that includes relevant keywords", sec⟩ st

/-- The image pass: `totalElements += images.length`, then the loop. -/
def imagesStage (rs : Regions) (imgs : List (Pos × Node)) (st : EState) : EState :=
  imgs.foldl (imageStep rs) { st with total := st.total + imgs.length }

/-- Heading level from the tag name (`parseInt(tagName.substring(1))`). -/
def headingLevel (tag : String) : Nat :=
  (strToDigits? (tag.drop 1)).getD 0

/-- The H1 branch of one heading iteration: `h1Count` is incremented for a
level-1 heading and the second and later h1 raise the Multiple H1 issue. -/
def headingH1Part (rs : Regions) (pe : Pos × Node) (level h1Count : Nat)
    (st : EState) : EState × Nat :=
  if level == 1 then
    if h1Count + 1 > 1 then
      let sec := determineSectionForElement rs pe.1
      (addIssueTo (capitalizeFirstLetter sec) 15
        ⟨getSelector pe.2, "H1 Heading", "Multiple H1 headings", .medium,
         "Use only one H1 heading as the main title of your page", sec⟩ st,
       h1Count + 1)
    else (st, h1Count + 1)
  else (st, h1Count)

/-- The skipped-level branch of one heading iteration, compared against the
immediately preceding heading level in document order. -/
def headingSkipPart (rs : Regions) (pe : Pos × Node) (prev level : Nat)
    (st : EState) : EState :=
  if prev > 0 && level > prev + 1 then
    let sec := determineSectionForElement rs pe.1
    addIssueTo (capitalizeFirstLetter sec) 5
      ⟨getSelector pe.2, "H" ++ toString level ++ " Heading",
       "Skipped heading level (H" ++ toString prev ++ " to H" ++ toString level ++ ")",
       .low,
       "Maintain proper heading hierarchy (H1 → H2 → H3) to improve page structure", sec⟩
      st
  else st

/-- One iteration of the heading loop; the accumulator carries the state,
`h1Count` and `previousHeadingLevel` (which becomes this heading's level). -/
def headingStep (rs : Regions) (acc : EState × Nat × Nat) (pe : Pos × Node) :
    EState × Nat × Nat :=
  let st := { acc.1 with analyzed := acc.1.analyzed + 1 }
  let level := headingLevel pe.2.tag
  let r1 := headingH1Part rs pe level acc.2.1 st
  (headingSkipPart rs pe acc.2.2 level r1.1, r1.2, level)

/-- The heading pass: `totalElements += headings.length`, then the loop with
`h1Count = 0` and `previousHeadingLevel = 0`; returns the final state and the
final `h1Count`. -/
def headingsStage (rs : Regions) (hs : List (Pos × Node)) (st : EState) :
    EState × Nat × Nat :=
  hs.foldl (headingStep rs) ({ st with total := st.total + hs.length }, 0, 0)

/-- The synthetic missing-H1 check after the heading loop. -/
def missingH1Stage (h1Count : Nat) (st : EState) : EState :=
  if h1Count == 0 then
    addIssueTo "Main Content" 20
      ⟨"body", "H1 Heading", "Missing H1 heading", .high,
       "Add an H1 heading as the main title of your page", .content⟩ st
  else st

/-- One iteration of the link loop. -/
def linkStep (rs : Regions) (st : EState) (pe : Pos × Node) : EState :=
  let st := { st with analyzed := st.analyzed + 1 }
  let txt := pe.2.textContent
  if txt == "" || (strTrim txt).length == 0 || strToLower (strTrim txt) == "click here" ||
      strToLower (strTrim txt) == "read more" then
    let sec := determineSectionForElement rs pe.1
    addIssueTo (capitalizeFirstLetter sec) 10
      ⟨getSelector pe.2, "Link",
       (if txt == "" then "Link missing text content" else "Non-descriptive link text"),
       .medium,
       "Use descriptive link text that explains where the link will take users", sec⟩ st
  else st

def linksStage (rs : Regions) (links : List (Pos × Node)) (st : EState) : EState :=
  links.foldl (linkStep rs) { st with total := st.total + links.length }

/-- One iteration of the paragraph loop. -/
def paragraphStep (rs : Regions) (st : EState) (pe : Pos × Node) : EState :=
  let st := { st with analyzed := st.analyzed + 1 }
  let txt := pe.2.textContent
  if txt != "" && txt.length > 300 then
    let sec := determineSectionForElement rs pe.1
    addIssueTo (capitalizeFirstLetter sec) 5
      ⟨getSelector pe.2, "Paragraph", "Long paragraph (over 300 characters)", .low,
       "Break long paragraphs into smaller chunks for better readability", sec⟩ st
  else st

def paragraphsStage (rs : Regions) (ps : List (Pos × Node)) (st : EState) : EState :=
  ps.foldl (paragraphStep rs) { st with total := st.total + ps.length }

/-- `Math.max(0, Math.min(100, score))`. -/
def clampScore (x : Int) : Int :=
  max 0 (min 100 x)

/-- The final pass clamping every section score to the 0 to 100 range. -/
def finalizeStage (st : EState) : EState :=
  { st with sections := st.sections.map (fun s => { s with score := clampScore s.score }) }

/-- `analyzePageElements(htmlContent, url)` over the parsed document. -/
def analyzePageElements (d : Doc) (url : String) : ElementAnalysisResult :=
  let rs := resolveRegions d
  let st1 := elemTitleStage (qFirst d (isTag "title")) initES
  let st2 := elemMetaStage (qFirst d (metaName "description")) st1
  let st3 := imagesStage rs (qAll d (isTag "img")) st2
  let hres := headingsStage rs (qAll d isHeading) st3
  let st4 := missingH1Stage hres.2.1 hres.1
  let st5 := linksStage rs (qAll d linkWithHref) st4
  let st6 := paragraphsStage rs (qAll d (isTag "p")) st5
  let st7 := finalizeStage st6
  { url := url
    totalElements := st7.total
    analyzedElements := st7.analyzed
    elementIssues := st7.elementIssues
    sectionAnalysis := st7.sections }

/-! ## Concrete documents used by the scenario claims -/

/-- A document with no title, no meta description, one h1, one img without an
alt attribute, and a viewport meta tag. -/
def scenarioDoc : Doc :=
  [.elem "html" [] [
    .elem "head" [] [.elem "meta" [("name", "viewport"), ("content", "width=device-width")] []],
    .elem "body" [] [.elem "h1" [] [.text "Hello"], .elem "img" [("src", "x.png")] []]]]

/-- A document whose body header contains two h1 elements; title and meta
description are present and inside the length bounds. -/
def twoH1Doc : Doc :=
  [.elem "html" [] [
    .elem "head" [] [
      .elem "title" [] [.text "Good descriptive page title here"],
      .elem "meta" [("name", "description"), ("content", String.mk (List.replicate 100 'a'))] []],
    .elem "body" [] [
      .elem "header" [] [
        .elem "h1" [("id", "first")] [.text "Main"],
        .elem "h1" [("id", "second")] [.text "Another"]]]]]

/-- A document whose meta description content has exactly n characters. -/
def metaLenDoc (n : Nat) : Doc :=
  [.elem "meta" [("name", "description"), ("content", String.mk (List.replicate n 'a'))] []]

/-- A document with a single link whose href is a bare relative path. -/
def relativeLinkDoc : Doc :=
  [.elem "a" [("href", "foo.html")] [.text "rel"]]

/-- A document with a single link whose href starts with neither # nor /. -/
def plainLinkDoc : Doc :=
  [.elem "a" [("href", "x")] [.text "link"]]

/-- The meta-description-length issues the Element Analyzer reports for a
description of exactly n characters. -/
def metaDescIssuesAt (n : Nat) : List (String × Severity) :=
  ((analyzePageElements (metaLenDoc n) "").elementIssues.filter
    (fun i => i.element == "Meta Description")).map (fun i => (i.issue, i.severity))

/-! ## Spec-side definitions, transcribed from the specification text -/

/-- Transcribed from the spec, for comparison with the implementation: the
nine ordered checks of the Document Analyzer with their severities and
thresholds, each contributing at most one entry.  Titles name the checks:
1. title missing high, length under 10 medium, length over 60 low;
2. meta description missing high, under 50 medium, over 160 low;
3. H1 count 0 high, more than one medium;
4. H2 present with zero H1 medium;
5. H3 present with zero H2 low;
6. images missing alt (withoutAlt over 0 and total over 0) medium;
7. links with empty or whitespace-only text medium;
8. missing viewport meta high;
9. missing structured data medium. -/
def specDocChecks (d : Doc) : List (Severity × String) :=
  let e := docExtract d
  (if e.title = "" then [(.high, "Missing page title")]
   else if e.title.length < 10 then [(.medium, "Title too short")]
   else if e.title.length > 60 then [(.low, "Title too long")]
   else []) ++
  (if e.metaDescription = "" then [(.high, "Missing meta description")]
   else if e.metaDescription.length < 50 then [(.medium, "Meta description too short")]
   else if e.metaDescription.length > 160 then [(.low, "Meta description too long")]
   else []) ++
  (if e.h1 = 0 then [(.high, "Missing H1 heading")]
   else if e.h1 > 1 then [(.medium, "Multiple H1 headings")]
   else []) ++
  (if e.h1 = 0 ∧ e.h2 > 0 then [(.medium, "H2 without H1")] else []) ++
  (if e.h2 = 0 ∧ e.h3 > 0 then [(.low, "H3 without H2")] else []) ++
  (if e.imagesTotal > 0 ∧ e.imagesWithoutAlt > 0 then
    [(.medium, "Images missing alt text")] else []) ++
  (if e.linksWithoutText > 0 then [(.medium, "Links without text")] else []) ++
  (if ¬e.hasViewport then [(.high, "Missing viewport meta tag")] else []) ++
  (if ¬e.hasStructuredData then [(.medium, "Missing structured data")] else [])

/-- Transcribed from the amended link-partition description: a link is
internal when its href starts with `#` or `/`, or the reference url is
non-empty and the href contains its hostname. -/
def linkIsInternal (url href : String) : Bool :=
  strStartsWith href "#" || strStartsWith href "/" ||
    (url != "" &&
      (match urlHostname url with
       | some h => strContains href h
       | none => false))

/-- Transcribed from the amended link-partition description: a link is
external when it is not internal and its href starts with `http`. -/
def linkIsExternal (url href : String) : Bool :=
  !linkIsInternal url href && strStartsWith href "http"

/-- The regions in the fixed testing order of the spec: header, navigation,
content, sidebar, footer. -/
def orderedRegions (rs : Regions) : List (Section × Option (Pos × Node)) :=
  [(.header, rs.header), (.navigation, rs.navigation), (.content, rs.content),
   (.sidebar, rs.sidebar), (.footer, rs.footer)]

/-! ## Proof machinery -/

/-- The issue list a sequence of pushes produces, with ids from `n`. -/
def numberFrom (n : Nat) : List IssueContent → List Issue
  | [] => []
  | c :: cs => ⟨n, c.severity, c.title, c.description, c.howToFix⟩ :: numberFrom (n + 1) cs

/-- Push a list of issue contents in order. -/
def pushAll (st : DState) (cs : List IssueContent) : DState :=
  cs.foldl DState.push st

/-- The contents check 1 pushes (zero or one). -/
def titleSeg (e : DocExtract) : List IssueContent :=
  if e.title == "" then [titleMissingC]
  else if e.title.length < 10 then [titleShortC e.title.length]
  else if e.title.length > 60 then [titleLongC e.title.length]
  else []

/-- The contents check 2 pushes. -/
def metaSeg (e : DocExtract) : List IssueContent :=
  if e.metaDescription == "" then [metaMissingC]
  else if e.metaDescription.length < 50 then [metaShortC e.metaDescription.length]
  else if e.metaDescription.length > 160 then [metaLongC e.metaDescription.length]
  else []

/-- The contents check 3 pushes. -/
def h1Seg (e : DocExtract) : List IssueContent :=
  if e.h1 == 0 then [h1MissingC]
  else if e.h1 > 1 then [h1MultipleC e.h1]
  else []

/-- The contents check 4 pushes. -/
def h2Seg (e : DocExtract) : List IssueContent :=
  if e.h1 == 0 && e.h2 > 0 then [h2WithoutH1C] else []

/-- The contents check 5 pushes. -/
def h3Seg (e : DocExtract) : List IssueContent :=
  if e.h2 == 0 && e.h3 > 0 then [h3WithoutH2C] else []

/-- The contents check 6 pushes. -/
def imagesSeg (e : DocExtract) : List IssueContent :=
  if e.imagesTotal > 0 && e.imagesWithoutAlt > 0 then
    [imagesAltC e.imagesWithoutAlt e.imagesTotal]
  else []

/-- The contents check 7 pushes. -/
def linksSeg (e : DocExtract) : List IssueContent :=
  if e.linksWithoutText > 0 then [linksTextC e.linksWithoutText] else []

/-- The contents check 8 pushes. -/
def viewportSeg (e : DocExtract) : List IssueContent :=
  if !e.hasViewport then [viewportC] else []

/-- The contents check 9 pushes. -/
def structuredSeg (e : DocExtract) : List IssueContent :=
  if !e.hasStructuredData then [structuredC] else []

/-- The contents of all nine checks in order. -/
def allSegs (e : DocExtract) : List IssueContent :=
  titleSeg e ++ metaSeg e ++ h1Seg e ++ h2Seg e ++ h3Seg e ++
    imagesSeg e ++ linksSeg e ++ viewportSeg e ++ structuredSeg e

/-- The six section names in record order. -/
def sectionNames : List String :=
  ["Header", "Navigation", "Main Content", "Sidebar", "Footer", "General"]

/-- The flat issues attributed to the section record named `n`. -/
def filtOf (l : List ElementIssue) (n : String) : List ElementIssue :=
  l.filter (fun i => capitalizeFirstLetter i.«section» == n)

/-- The six records keep their fixed names and importance weights. -/
def projInv (st : EState) : Prop :=
  st.sections.map (fun s => (s.name, s.importance)) =
    [("Header", 8), ("Navigation", 7), ("Main Content", 10),
     ("Sidebar", 5), ("Footer", 4), ("General", 6)]

/-- Each record holds exactly the flat issues whose capitalized section label
is its name, in order. -/
def filtInv (st : EState) : Prop :=
  st.sections.map (fun s => (s.name, s.issues)) =
    sectionNames.map (fun n => (n, filtOf st.elementIssues n))

/-- The invariant carried through every stage of the Element Analyzer. -/
def coreInv (st : EState) : Prop :=
  projInv st ∧ filtInv st

/-- The hypothesis under which the Document Analyzer cannot throw: the
reference url is absent (empty) or the URL constructor accepts it. -/
def validRefUrl (url : String) : Prop :=
  url = "" ∨ (urlHostname url).isSome = true

/-- Witness document for the amended link partition: one of each class. -/
def linkPartitionDoc : Doc :=
  [.elem "a" [("href", "#top")] [.text "a"],
   .elem "a" [("href", "/home")] [.text "b"],
   .elem "a" [("href", "https://example.com/x")] [.text "c"],
   .elem "a" [("href", "https://other.com")] [.text "d"],
   .elem "a" [("href", "rel.html")] [.text "e"]]

/-- The result the Document Analyzer returns on `linkPartitionDoc` with
reference url https://example.com/ — three internal links (hash, slash,
hostname match), one external, one relative link in neither class. -/
def linkPartitionResult : HtmlAnalysisResult :=
  { title := docTitle linkPartitionDoc
    description := docMetaDescription linkPartitionDoc
    keywords := docKeywords linkPartitionDoc
    ogTags := docOgTags linkPartitionDoc
    issues := docIssues linkPartitionDoc
    headings := docHeadings linkPartitionDoc
    images := docImages linkPartitionDoc
    links := { total := 5, internal := 3, external := 1 } }

/-! ## Scenario theorems -/

/-- C6: for HTML with no title element, no meta description, a single h1, one
img lacking an alt attribute, and a viewport meta tag, the Document Analyzer
reports exactly: title missing (high, id 1), meta description missing (high,
id 2), images missing alt (medium, id 3) and structured data missing
(medium, id 4) — no viewport issue and no H1 issue. -/
theorem c6_scenario :
    (analyzeHtmlContent scenarioDoc "").toOption.map
        (fun r => r.issues.map (fun i => (i.id, i.severity, i.title))) =
      some [(1, Severity.high, "Missing page title"),
            (2, Severity.high, "Missing meta description"),
            (3, Severity.medium, "Images missing alt text"),
            (4, Severity.medium, "Missing structured data")] := by
  decide

/-- C7: on a document whose header contains two h1 elements, the Element
Analyzer raises exactly one Multiple H1 headings issue, of medium severity,
on the second h1 in document order (selector h1#second), and the Header
section score is 100 - 15 = 85 after the clamp. -/
theorem c7_multiple_h1_scenario :
    (analyzePageElements twoH1Doc "https://site.test").elementIssues =
      [⟨"h1#second", "H1 Heading", "Multiple H1 headings", .medium,
        "Use only one H1 heading as the main title of your page", .header⟩] ∧
    (analyzePageElements twoH1Doc "https://site.test").sectionAnalysis.map
        (fun s => (s.name, s.score)) =
      [("Header", 85), ("Navigation", 100), ("Main Content", 100),
       ("Sidebar", 100), ("Footer", 100), ("General", 100)] := by
  constructor
  · decide
  · decide

/-- C8: in the Element Analyzer, a meta description of exactly 70 characters
produces no too-short issue and one of exactly 160 characters produces no
too-long issue; 71 and 160 characters pass, 69 triggers the medium too-short
issue, 161 the low too-long issue. -/
theorem c8_meta_description_boundaries :
    metaDescIssuesAt 69 = [("Meta description is too short", Severity.medium)] ∧
    metaDescIssuesAt 70 = [] ∧
    metaDescIssuesAt 71 = [] ∧
    metaDescIssuesAt 160 = [] ∧
    metaDescIssuesAt 161 = [("Meta description is too long", Severity.low)] := by
  refine ⟨by decide, by decide, by decide, by decide, by decide⟩

/-- C1 fails as stated: with the non-empty reference url not-a-url, which the
URL constructor rejects, and a document holding one link whose href starts
with neither # nor /, analyzeHtmlContent raises instead of returning a
result. -/
theorem c1_counterexample :
    (analyzeHtmlContent plainLinkDoc "not-a-url").isOk = false := by
  decide

/-- C4 fails as stated: for a document with one link whose href is the bare
relative path foo.html (and no reference url), the link is counted in the
total but classified neither internal nor external, so internal + external
does not account for all links with an href. -/
theorem c4_counterexample :
    (analyzeHtmlContent relativeLinkDoc "").toOption.map
        (fun r => (r.links.total, r.links.internal, r.links.external)) =
      some (1, 0, 0) := by
  decide

/-- C5: section attribution is first-match in the fixed order header,
navigation, content, sidebar, footer under ancestor-or-self containment of
the resolved landmark, with general when no region contains the element.
`analyzePageElements` applies `determineSectionForElement` to every image,
heading, link and paragraph it attributes; `resolveRegions` resolves each
region to at most one landmark through its fallback selector chain. -/
theorem c5_section_attribution (rs : Regions) (p : Pos) :
    determineSectionForElement rs p =
      (((orderedRegions rs).find? (fun q => regionContains q.2 p)).map
        (fun q => q.1)).getD Section.general := by
  unfold determineSectionForElement orderedRegions
  cases h1 : regionContains rs.header p <;>
  cases h2 : regionContains rs.navigation p <;>
  cases h3 : regionContains rs.content p <;>
  cases h4 : regionContains rs.sidebar p <;>
  cases h5 : regionContains rs.footer p <;>
  simp [List.find?, h1, h2, h3, h4, h5]

/-! ## Decomposition of the Document Analyzer checks -/

theorem pushAll_append (st : DState) (cs ds : List IssueContent) :
    pushAll st (cs ++ ds) = pushAll (pushAll st cs) ds := by
  simp [pushAll, List.foldl_append]

theorem pushAll_issues (cs : List IssueContent) : ∀ st : DState,
    (pushAll st cs).issues = st.issues ++ numberFrom st.nextId cs := by
  induction cs with
  | nil => intro st; simp [pushAll, numberFrom]
  | cons c cs ih =>
    intro st
    simp only [pushAll, List.foldl_cons] at *
    rw [ih]
    simp [DState.push, numberFrom]

theorem numberFrom_map_sevtitle (cs : List IssueContent) : ∀ n : Nat,
    (numberFrom n cs).map (fun i => (i.severity, i.title)) =
      cs.map (fun c => (c.severity, c.title)) := by
  induction cs with
  | nil => intro n; rfl
  | cons c cs ih => intro n; simp [numberFrom, ih]

theorem numberFrom_length (cs : List IssueContent) : ∀ n : Nat,
    (numberFrom n cs).length = cs.length := by
  induction cs with
  | nil => intro n; rfl
  | cons c cs ih => intro n; simp [numberFrom, ih]

theorem numberFrom_ids (cs : List IssueContent) : ∀ n : Nat,
    (numberFrom n cs).map (fun i => i.id) = List.range' n cs.length := by
  induction cs with
  | nil => intro n; rfl
  | cons c cs ih => intro n; simp [numberFrom, ih, List.range'_succ]

theorem titleCheck_eq (e : DocExtract) (st : DState) :
    titleCheck e st = pushAll st (titleSeg e) := by
  unfold titleCheck titleSeg
  repeat' split
  all_goals rfl

theorem metaDescriptionCheck_eq (e : DocExtract) (st : DState) :
    metaDescriptionCheck e st = pushAll st (metaSeg e) := by
  unfold metaDescriptionCheck metaSeg
  repeat' split
  all_goals rfl

theorem h1Check_eq (e : DocExtract) (st : DState) :
    h1Check e st = pushAll st (h1Seg e) := by
  unfold h1Check h1Seg
  repeat' split
  all_goals rfl

theorem h2WithoutH1Check_eq (e : DocExtract) (st : DState) :
    h2WithoutH1Check e st = pushAll st (h2Seg e) := by
  unfold h2WithoutH1Check h2Seg
  repeat' split
  all_goals rfl

theorem h3WithoutH2Check_eq (e : DocExtract) (st : DState) :
    h3WithoutH2Check e st = pushAll st (h3Seg e) := by
  unfold h3WithoutH2Check h3Seg
  repeat' split
  all_goals rfl

theorem imagesAltCheck_eq (e : DocExtract) (st : DState) :
    imagesAltCheck e st = pushAll st (imagesSeg e) := by
  unfold imagesAltCheck imagesSeg
  repeat' split
  all_goals rfl

theorem linksTextCheck_eq (e : DocExtract) (st : DState) :
    linksTextCheck e st = pushAll st (linksSeg e) := by
  unfold linksTextCheck linksSeg
  repeat' split
  all_goals rfl

theorem viewportCheck_eq (e : DocExtract) (st : DState) :
    viewportCheck e st = pushAll st (viewportSeg e) := by
  unfold viewportCheck viewportSeg
  repeat' split
  all_goals rfl

theorem structuredDataCheck_eq (e : DocExtract) (st : DState) :
    structuredDataCheck e st = pushAll st (structuredSeg e) := by
  unfold structuredDataCheck structuredSeg
  repeat' split
  all_goals rfl

theorem docChecks_eq (e : DocExtract) (st : DState) :
    docChecks e st = pushAll st (allSegs e) := by
  unfold docChecks allSegs
  rw [titleCheck_eq, metaDescriptionCheck_eq, h1Check_eq, h2WithoutH1Check_eq,
    h3WithoutH2Check_eq, imagesAltCheck_eq, linksTextCheck_eq, viewportCheck_eq,
    structuredDataCheck_eq]
  simp [pushAll_append]

theorem docIssues_eq (d : Doc) :
    docIssues d = numberFrom 1 (allSegs (docExtract d)) := by
  unfold docIssues
  rw [docChecks_eq, pushAll_issues]
  rfl

theorem titleSeg_proj (e : DocExtract) :
    (titleSeg e).map (fun c => (c.severity, c.title)) =
      (if e.title = "" then [(Severity.high, "Missing page title")]
       else if e.title.length < 10 then [(Severity.medium, "Title too short")]
       else if e.title.length > 60 then [(Severity.low, "Title too long")]
       else []) := by
  unfold titleSeg
  by_cases h1 : e.title = ""
  · simp [h1, titleMissingC]
  · by_cases h2 : e.title.length < 10
    · simp [h1, h2, titleShortC]
    · by_cases h3 : e.title.length > 60
      · simp [h1, h2, h3, titleLongC]
      · simp [h1, h2, h3]

theorem metaSeg_proj (e : DocExtract) :
    (metaSeg e).map (fun c => (c.severity, c.title)) =
      (if e.metaDescription = "" then [(Severity.high, "Missing meta description")]
       else if e.metaDescription.length < 50 then
         [(Severity.medium, "Meta description too short")]
       else if e.metaDescription.length > 160 then
         [(Severity.low, "Meta description too long")]
       else []) := by
  unfold metaSeg
  by_cases h1 : e.metaDescription = ""
  · simp [h1, metaMissingC]
  · by_cases h2 : e.metaDescription.length < 50
    · simp [h1, h2, metaShortC]
    · by_cases h3 : e.metaDescription.length > 160
      · simp [h1, h2, h3, metaLongC]
      · simp [h1, h2, h3]

theorem h1Seg_proj (e : DocExtract) :
    (h1Seg e).map (fun c => (c.severity, c.title)) =
      (if e.h1 = 0 then [(Severity.high, "Missing H1 heading")]
       else if e.h1 > 1 then [(Severity.medium, "Multiple H1 headings")]
       else []) := by
  unfold h1Seg
  by_cases h1 : e.h1 = 0
  · simp [h1, h1MissingC]
  · by_cases h2 : e.h1 > 1
    · simp [h1, h2, h1MultipleC]
    · simp [h1, h2]

theorem h2Seg_proj (e : DocExtract) :
    (h2Seg e).map (fun c => (c.severity, c.title)) =
      (if e.h1 = 0 ∧ e.h2 > 0 then [(Severity.medium, "H2 without H1")] else []) := by
  unfold h2Seg
  by_cases h : e.h1 = 0 ∧ e.h2 > 0
  · simp [h.1, h.2, h2WithoutH1C]
  · simp only [Bool.and_eq_true, beq_iff_eq]
    rw [if_neg, if_neg h]
    · rfl
    · simpa [decide_eq_true_eq] using h

theorem h3Seg_proj (e : DocExtract) :
    (h3Seg e).map (fun c => (c.severity, c.title)) =
      (if e.h2 = 0 ∧ e.h3 > 0 then [(Severity.low, "H3 without H2")] else []) := by
  unfold h3Seg
  by_cases h : e.h2 = 0 ∧ e.h3 > 0
  · simp [h.1, h.2, h3WithoutH2C]
  · simp only [Bool.and_eq_true, beq_iff_eq]
    rw [if_neg, if_neg h]
    · rfl
    · simpa [decide_eq_true_eq] using h

theorem imagesSeg_proj (e : DocExtract) :
    (imagesSeg e).map (fun c => (c.severity, c.title)) =
      (if e.imagesTotal > 0 ∧ e.imagesWithoutAlt > 0 then
        [(Severity.medium, "Images missing alt text")]
       else []) := by
  unfold imagesSeg
  by_cases h : e.imagesTotal > 0 ∧ e.imagesWithoutAlt > 0
  · simp [h.1, h.2, imagesAltC]
  · simp only [Bool.and_eq_true]
    rw [if_neg, if_neg h]
    · rfl
    · simpa [decide_eq_true_eq] using h

theorem linksSeg_proj (e : DocExtract) :
    (linksSeg e).map (fun c => (c.severity, c.title)) =
      (if e.linksWithoutText > 0 then [(Severity.medium, "Links without text")] else []) := by
  unfold linksSeg
  by_cases h : e.linksWithoutText > 0
  · simp [h, linksTextC]
  · simp [h]

theorem viewportSeg_proj (e : DocExtract) :
    (viewportSeg e).map (fun c => (c.severity, c.title)) =
      (if ¬e.hasViewport then [(Severity.high, "Missing viewport meta tag")] else []) := by
  unfold viewportSeg
  cases h : e.hasViewport <;> simp [h, viewportC]

theorem structuredSeg_proj (e : DocExtract) :
    (structuredSeg e).map (fun c => (c.severity, c.title)) =
      (if ¬e.hasStructuredData then [(Severity.medium, "Missing structured data")] else []) := by
  unfold structuredSeg
  cases h : e.hasStructuredData <;> simp [h, structuredC]

/-- C2: the Document Analyzer runs exactly the nine checks in the fixed
order with the specified severities and strict thresholds, each check
appends at most one issue (each segment of `specDocChecks` has at most one
entry and the checks are independent), the issue ids are sequential from 1,
and `analyzeHtmlContent` reports exactly this issue list whenever it
returns. -/
theorem c2_nine_checks (d : Doc) :
    (docIssues d).map (fun i => (i.severity, i.title)) = specDocChecks d ∧
    (docIssues d).map (fun i => i.id) = List.range' 1 (docIssues d).length ∧
    ∀ url : String,
      ((analyzeHtmlContent d url).toOption.all
        (fun r => decide (r.issues = docIssues d))) = true := by
  refine ⟨?_, ?_, ?_⟩
  · rw [docIssues_eq, numberFrom_map_sevtitle]
    unfold allSegs specDocChecks
    simp only [List.map_append]
    rw [titleSeg_proj, metaSeg_proj, h1Seg_proj, h2Seg_proj, h3Seg_proj,
      imagesSeg_proj, linksSeg_proj, viewportSeg_proj, structuredSeg_proj]
  · rw [docIssues_eq, numberFrom_ids, numberFrom_length]
  · intro url
    unfold analyzeHtmlContent
    cases h : countLinksAux url (0, 0) (docHrefs d) with
    | error msg => simp [Except.toOption, Option.all]
    | ok p => simp [Except.toOption, Option.all]

/-- C9: both analyzers are pure functions of the document and url — two
calls on identical input are structurally identical results, nothing is
carried across calls, and the issue id sequence of a run restarts at 1
(ids are 1, 2, ... in order on every call). -/
theorem c9_deterministic (d : Doc) (url : String) :
    analyzeHtmlContent d url = analyzeHtmlContent d url ∧
    analyzePageElements d url = analyzePageElements d url ∧
    (docIssues d).map (fun i => i.id) = List.range' 1 (docIssues d).length := by
  refine ⟨rfl, rfl, ?_⟩
  rw [docIssues_eq, numberFrom_ids, numberFrom_length]

/-! ## Invariants of the Element Analyzer state -/

theorem updateFirst_map_eq {α β : Type} (f : α → β) (p : α → Bool) (g : α → α)
    (P : β → Bool) (G : β → β) (hp : ∀ a, p a = P (f a)) (hg : ∀ a, f (g a) = G (f a)) :
    ∀ l : List α, (updateFirst p g l).map f = updateFirst P G (l.map f) := by
  intro l
  induction l with
  | nil => rfl
  | cons x xs ih =>
    simp only [updateFirst, List.map_cons]
    rw [hp x]
    cases h : P (f x) <;> simp [h, hg, ih]

theorem updateFirst_id {α : Type} (p : α → Bool) : ∀ l : List α,
    updateFirst p (fun x => x) l = l := by
  intro l
  induction l with
  | nil => rfl
  | cons x xs ih =>
    simp only [updateFirst]
    split <;> simp [ih]

theorem projInv_addIssueTo (name : String) (pen : Int) (i : ElementIssue)
    (st : EState) (h : projInv st) : projInv (addIssueTo name pen i st) := by
  unfold projInv at *
  unfold addIssueTo
  dsimp only
  have key := updateFirst_map_eq (fun s : SectionAnalysis => (s.name, s.importance))
    (fun s => s.name == name)
    (fun s => { s with issues := s.issues ++ [i], score := s.score - pen })
    (fun x => x.1 == name) (fun x => x) (fun a => rfl) (fun a => rfl) st.sections
  rw [key, updateFirst_id, h]

theorem filtInv_addIssueTo (i : ElementIssue) (pen : Int) (st : EState)
    (h : filtInv st) :
    filtInv (addIssueTo (capitalizeFirstLetter i.«section») pen i st) := by
  unfold filtInv at *
  unfold addIssueTo
  dsimp only
  have key := updateFirst_map_eq (fun s : SectionAnalysis => (s.name, s.issues))
    (fun s => s.name == capitalizeFirstLetter i.«section»)
    (fun s => { s with issues := s.issues ++ [i], score := s.score - pen })
    (fun x => x.1 == capitalizeFirstLetter i.«section»)
    (fun x => (x.1, x.2 ++ [i])) (fun a => rfl) (fun a => rfl) st.sections
  rw [key, h]
  cases hs : i.«section» <;>
    simp [sectionNames, updateFirst, filtOf, List.filter_append,
      capitalizeFirstLetter, hs]

theorem coreInv_addIssueTo (i : ElementIssue) (pen : Int) (st : EState)
    (h : coreInv st) :
    coreInv (addIssueTo (capitalizeFirstLetter i.«section») pen i st) :=
  ⟨projInv_addIssueTo _ _ _ _ h.1, filtInv_addIssueTo _ _ _ h.2⟩

theorem coreInv_init : coreInv initES := by
  constructor <;> rfl

theorem coreInv_elemTitleStage (t : Option (Pos × Node)) (st : EState)
    (h : coreInv st) : coreInv (elemTitleStage t st) := by
  have hb : coreInv (bumpBoth st) := h
  unfold elemTitleStage
  cases t with
  | none => exact coreInv_addIssueTo titleMissingIssue 25 _ hb
  | some pe =>
    dsimp only
    split
    · exact coreInv_addIssueTo titleMissingIssue 25 _ hb
    · split
      · exact coreInv_addIssueTo titleShortIssue 15 _ hb
      · split
        · exact coreInv_addIssueTo titleLongIssue 10 _ hb
        · exact hb

theorem coreInv_elemMetaStage (m : Option (Pos × Node)) (st : EState)
    (h : coreInv st) : coreInv (elemMetaStage m st) := by
  have hb : coreInv (bumpBoth st) := h
  unfold elemMetaStage
  cases m with
  | none => exact coreInv_addIssueTo metaMissingIssue 25 _ hb
  | some pe =>
    dsimp only
    cases pe.2.getAttr? "content" with
    | none => exact coreInv_addIssueTo metaMissingIssue 25 _ hb
    | some c =>
      dsimp only
      split
      · exact coreInv_addIssueTo metaMissingIssue 25 _ hb
      · split
        · exact coreInv_addIssueTo metaShortIssue 15 _ hb
        · split
          · exact coreInv_addIssueTo metaLongIssue 10 _ hb
          · exact hb

theorem coreInv_imageStep (rs : Regions) (st : EState) (pe : Pos × Node)
    (h : coreInv st) : coreInv (imageStep rs st pe) := by
  have hb : coreInv { st with analyzed := st.analyzed + 1 } := h
  unfold imageStep
  dsimp only
  split
  · exact hb
  · exact coreInv_addIssueTo _ 10 _ hb

theorem coreInv_foldl {α : Type} (step : EState → α → EState)
    (hstep : ∀ st a, coreInv st → coreInv (step st a)) :
    ∀ (l : List α) (st : EState), coreInv st → coreInv (l.foldl step st) := by
  intro l
  induction l with
  | nil => intro st h; exact h
  | cons x xs ih => intro st h; exact ih _ (hstep _ _ h)

theorem coreInv_imagesStage (rs : Regions) (imgs : List (Pos × Node)) (st : EState)
    (h : coreInv st) : coreInv (imagesStage rs imgs st) := by
  unfold imagesStage
  exact coreInv_foldl _ (coreInv_imageStep rs) imgs _ h

theorem coreInv_headingH1Part (rs : Regions) (pe : Pos × Node) (level h1Count : Nat)
    (st : EState) (h : coreInv st) : coreInv (headingH1Part rs pe level h1Count st).1 := by
  unfold headingH1Part
  split
  · split
    · exact coreInv_addIssueTo _ 15 _ h
    · exact h
  · exact h

theorem coreInv_headingSkipPart (rs : Regions) (pe : Pos × Node) (prev level : Nat)
    (st : EState) (h : coreInv st) : coreInv (headingSkipPart rs pe prev level st) := by
  unfold headingSkipPart
  split
  · exact coreInv_addIssueTo _ 5 _ h
  · exact h

theorem coreInv_headingStep (rs : Regions) (acc : EState × Nat × Nat) (pe : Pos × Node)
    (h : coreInv acc.1) : coreInv (headingStep rs acc pe).1 := by
  have hb : coreInv { acc.1 with analyzed := acc.1.analyzed + 1 } := h
  unfold headingStep
  dsimp only
  exact coreInv_headingSkipPart _ _ _ _ _ (coreInv_headingH1Part _ _ _ _ _ hb)

theorem coreInv_headingsFold (rs : Regions) : ∀ (l : List (Pos × Node))
    (acc : EState × Nat × Nat), coreInv acc.1 →
    coreInv (l.foldl (headingStep rs) acc).1 := by
  intro l
  induction l with
  | nil => intro acc h; exact h
  | cons x xs ih => intro acc h; exact ih _ (coreInv_headingStep rs acc x h)

theorem coreInv_headingsStage (rs : Regions) (hs : List (Pos × Node)) (st : EState)
    (h : coreInv st) : coreInv (headingsStage rs hs st).1 := by
  unfold headingsStage
  exact coreInv_headingsFold rs hs _ h

theorem coreInv_missingH1Stage (c : Nat) (st : EState) (h : coreInv st) :
    coreInv (missingH1Stage c st) := by
  unfold missingH1Stage
  split
  · exact coreInv_addIssueTo _ 20 _ h
  · exact h

theorem coreInv_linkStep (rs : Regions) (st : EState) (pe : Pos × Node)
    (h : coreInv st) : coreInv (linkStep rs st pe) := by
  have hb : coreInv { st with analyzed := st.analyzed + 1 } := h
  unfold linkStep
  dsimp only
  split
  · exact coreInv_addIssueTo _ 10 _ hb
  · exact hb

theorem coreInv_linksStage (rs : Regions) (ls : List (Pos × Node)) (st : EState)
    (h : coreInv st) : coreInv (linksStage rs ls st) := by
  unfold linksStage
  exact coreInv_foldl _ (coreInv_linkStep rs) ls _ h

theorem coreInv_paragraphStep (rs : Regions) (st : EState) (pe : Pos × Node)
    (h : coreInv st) : coreInv (paragraphStep rs st pe) := by
  have hb : coreInv { st with analyzed := st.analyzed + 1 } := h
  unfold paragraphStep
  dsimp only
  split
  · exact coreInv_addIssueTo _ 5 _ hb
  · exact hb

theorem coreInv_paragraphsStage (rs : Regions) (ps : List (Pos × Node)) (st : EState)
    (h : coreInv st) : coreInv (paragraphsStage rs ps st) := by
  unfold paragraphsStage
  exact coreInv_foldl _ (coreInv_paragraphStep rs) ps _ h

theorem coreInv_finalizeStage (st : EState) (h : coreInv st) :
    coreInv (finalizeStage st) := by
  obtain ⟨hp, hf⟩ := h
  constructor
  · unfold projInv at *
    unfold finalizeStage
    dsimp only
    rw [List.map_map]
    exact hp
  · unfold filtInv at *
    unfold finalizeStage
    dsimp only
    rw [List.map_map]
    exact hf

/-! ## Element counters -/

theorem foldl_total {α : Type} (step : EState → α → EState)
    (h : ∀ st a, (step st a).total = st.total) :
    ∀ (l : List α) (st : EState), (l.foldl step st).total = st.total := by
  intro l
  induction l with
  | nil => intro st; rfl
  | cons x xs ih => intro st; rw [List.foldl_cons, ih, h]

theorem foldl_analyzed {α : Type} (step : EState → α → EState)
    (h : ∀ st a, (step st a).analyzed = st.analyzed + 1) :
    ∀ (l : List α) (st : EState),
      (l.foldl step st).analyzed = st.analyzed + l.length := by
  intro l
  induction l with
  | nil => intro st; rfl
  | cons x xs ih =>
    intro st
    rw [List.foldl_cons, ih, h, List.length_cons]
    omega

theorem elemTitleStage_total (t : Option (Pos × Node)) (st : EState) :
    (elemTitleStage t st).total = st.total + 1 := by
  unfold elemTitleStage
  cases t with
  | none => rfl
  | some pe =>
    dsimp only
    repeat' split
    all_goals rfl

theorem elemTitleStage_analyzed (t : Option (Pos × Node)) (st : EState) :
    (elemTitleStage t st).analyzed = st.analyzed + 1 := by
  unfold elemTitleStage
  cases t with
  | none => rfl
  | some pe =>
    dsimp only
    repeat' split
    all_goals rfl

theorem elemMetaStage_total (m : Option (Pos × Node)) (st : EState) :
    (elemMetaStage m st).total = st.total + 1 := by
  unfold elemMetaStage
  cases m with
  | none => rfl
  | some pe =>
    dsimp only
    cases pe.2.getAttr? "content" with
    | none => rfl
    | some c =>
      dsimp only
      repeat' split
      all_goals rfl

theorem elemMetaStage_analyzed (m : Option (Pos × Node)) (st : EState) :
    (elemMetaStage m st).analyzed = st.analyzed + 1 := by
  unfold elemMetaStage
  cases m with
  | none => rfl
  | some pe =>
    dsimp only
    cases pe.2.getAttr? "content" with
    | none => rfl
    | some c =>
      dsimp only
      repeat' split
      all_goals rfl

theorem imageStep_total (rs : Regions) (st : EState) (pe : Pos × Node) :
    (imageStep rs st pe).total = st.total := by
  unfold imageStep
  dsimp only
  split
  all_goals rfl

theorem imageStep_analyzed (rs : Regions) (st : EState) (pe : Pos × Node) :
    (imageStep rs st pe).analyzed = st.analyzed + 1 := by
  unfold imageStep
  dsimp only
  split
  all_goals rfl

theorem imagesStage_total (rs : Regions) (l : List (Pos × Node)) (st : EState) :
    (imagesStage rs l st).total = st.total + l.length := by
  unfold imagesStage
  rw [foldl_total _ (fun st a => imageStep_total rs st a)]

theorem imagesStage_analyzed (rs : Regions) (l : List (Pos × Node)) (st : EState) :
    (imagesStage rs l st).analyzed = st.analyzed + l.length := by
  unfold imagesStage
  rw [foldl_analyzed _ (fun st a => imageStep_analyzed rs st a)]

theorem headingH1Part_total (rs : Regions) (pe : Pos × Node) (level c : Nat)
    (st : EState) : (headingH1Part rs pe level c st).1.total = st.total := by
  unfold headingH1Part
  repeat' split
  all_goals rfl

theorem headingH1Part_analyzed (rs : Regions) (pe : Pos × Node) (level c : Nat)
    (st : EState) : (headingH1Part rs pe level c st).1.analyzed = st.analyzed := by
  unfold headingH1Part
  repeat' split
  all_goals rfl

theorem headingSkipPart_total (rs : Regions) (pe : Pos × Node) (prev level : Nat)
    (st : EState) : (headingSkipPart rs pe prev level st).total = st.total := by
  unfold headingSkipPart
  split
  all_goals rfl

theorem headingSkipPart_analyzed (rs : Regions) (pe : Pos × Node) (prev level : Nat)
    (st : EState) : (headingSkipPart rs pe prev level st).analyzed = st.analyzed := by
  unfold headingSkipPart
  split
  all_goals rfl

theorem headingStep_total (rs : Regions) (acc : EState × Nat × Nat) (pe : Pos × Node) :
    (headingStep rs acc pe).1.total = acc.1.total := by
  unfold headingStep
  dsimp only
  rw [headingSkipPart_total, headingH1Part_total]

theorem headingStep_analyzed (rs : Regions) (acc : EState × Nat × Nat) (pe : Pos × Node) :
    (headingStep rs acc pe).1.analyzed = acc.1.analyzed + 1 := by
  unfold headingStep
  dsimp only
  rw [headingSkipPart_analyzed, headingH1Part_analyzed]

theorem headingsFold_total (rs : Regions) : ∀ (l : List (Pos × Node))
    (acc : EState × Nat × Nat),
    (l.foldl (headingStep rs) acc).1.total = acc.1.total := by
  intro l
  induction l with
  | nil => intro acc; rfl
  | cons x xs ih => intro acc; rw [List.foldl_cons, ih, headingStep_total]

theorem headingsFold_analyzed (rs : Regions) : ∀ (l : List (Pos × Node))
    (acc : EState × Nat × Nat),
    (l.foldl (headingStep rs) acc).1.analyzed = acc.1.analyzed + l.length := by
  intro l
  induction l with
  | nil => intro acc; rfl
  | cons x xs ih =>
    intro acc
    rw [List.foldl_cons, ih, headingStep_analyzed, List.length_cons]
    omega

theorem headingsStage_total (rs : Regions) (hs : List (Pos × Node)) (st : EState) :
    (headingsStage rs hs st).1.total = st.total + hs.length := by
  unfold headingsStage
  rw [headingsFold_total]

theorem headingsStage_analyzed (rs : Regions) (hs : List (Pos × Node)) (st : EState) :
    (headingsStage rs hs st).1.analyzed = st.analyzed + hs.length := by
  unfold headingsStage
  rw [headingsFold_analyzed]

theorem missingH1Stage_total (c : Nat) (st : EState) :
    (missingH1Stage c st).total = st.total := by
  unfold missingH1Stage
  split
  all_goals rfl

theorem missingH1Stage_analyzed (c : Nat) (st : EState) :
    (missingH1Stage c st).analyzed = st.analyzed := by
  unfold missingH1Stage
  split
  all_goals rfl

theorem linkStep_total (rs : Regions) (st : EState) (pe : Pos × Node) :
    (linkStep rs st pe).total = st.total := by
  unfold linkStep
  dsimp only
  split
  all_goals rfl

theorem linkStep_analyzed (rs : Regions) (st : EState) (pe : Pos × Node) :
    (linkStep rs st pe).analyzed = st.analyzed + 1 := by
  unfold linkStep
  dsimp only
  split
  all_goals rfl

theorem linksStage_total (rs : Regions) (l : List (Pos × Node)) (st : EState) :
    (linksStage rs l st).total = st.total + l.length := by
  unfold linksStage
  rw [foldl_total _ (fun st a => linkStep_total rs st a)]

theorem linksStage_analyzed (rs : Regions) (l : List (Pos × Node)) (st : EState) :
    (linksStage rs l st).analyzed = st.analyzed + l.length := by
  unfold linksStage
  rw [foldl_analyzed _ (fun st a => linkStep_analyzed rs st a)]

theorem paragraphStep_total (rs : Regions) (st : EState) (pe : Pos × Node) :
    (paragraphStep rs st pe).total = st.total := by
  unfold paragraphStep
  dsimp only
  split
  all_goals rfl

theorem paragraphStep_analyzed (rs : Regions) (st : EState) (pe : Pos × Node) :
    (paragraphStep rs st pe).analyzed = st.analyzed + 1 := by
  unfold paragraphStep
  dsimp only
  split
  all_goals rfl

theorem paragraphsStage_total (rs : Regions) (l : List (Pos × Node)) (st : EState) :
    (paragraphsStage rs l st).total = st.total + l.length := by
  unfold paragraphsStage
  rw [foldl_total _ (fun st a => paragraphStep_total rs st a)]

theorem paragraphsStage_analyzed (rs : Regions) (l : List (Pos × Node)) (st : EState) :
    (paragraphsStage rs l st).analyzed = st.analyzed + l.length := by
  unfold paragraphsStage
  rw [foldl_analyzed _ (fun st a => paragraphStep_analyzed rs st a)]

theorem finalizeStage_total (st : EState) : (finalizeStage st).total = st.total := rfl

theorem finalizeStage_analyzed (st : EState) :
    (finalizeStage st).analyzed = st.analyzed := rfl

theorem finalize_scores (st : EState) :
    ((finalizeStage st).sections).all
      (fun s => decide (0 ≤ s.score) && decide (s.score ≤ 100)) = true := by
  unfold finalizeStage
  dsimp only
  rw [List.all_eq_true]
  intro s hs
  rw [List.mem_map] at hs
  obtain ⟨s', hs', rfl⟩ := hs
  dsimp only
  rw [Bool.and_eq_true, decide_eq_true_eq, decide_eq_true_eq]
  unfold clampScore
  exact ⟨le_max_left 0 _, max_le (by norm_num) (min_le_left _ _)⟩

/-- The Element Analyzer result is the packaging of a final state that
satisfies the section invariant, has equal counters, and has every score
clamped into the 0 to 100 range. -/
theorem analyzePageElements_state (d : Doc) (url : String) :
    ∃ st : EState,
      analyzePageElements d url =
        { url := url, totalElements := st.total, analyzedElements := st.analyzed,
          elementIssues := st.elementIssues, sectionAnalysis := st.sections } ∧
      coreInv st ∧ st.analyzed = st.total ∧
      st.sections.all (fun s => decide (0 ≤ s.score) && decide (s.score ≤ 100)) = true := by
  refine ⟨finalizeStage (paragraphsStage (resolveRegions d) (qAll d (isTag "p"))
    (linksStage (resolveRegions d) (qAll d linkWithHref)
      (missingH1Stage (headingsStage (resolveRegions d) (qAll d isHeading)
          (imagesStage (resolveRegions d) (qAll d (isTag "img"))
            (elemMetaStage (qFirst d (metaName "description"))
              (elemTitleStage (qFirst d (isTag "title")) initES)))).2.1
        (headingsStage (resolveRegions d) (qAll d isHeading)
          (imagesStage (resolveRegions d) (qAll d (isTag "img"))
            (elemMetaStage (qFirst d (metaName "description"))
              (elemTitleStage (qFirst d (isTag "title")) initES)))).1))),
    rfl, ?_, ?_, ?_⟩
  · exact coreInv_finalizeStage _ (coreInv_paragraphsStage _ _ _
      (coreInv_linksStage _ _ _ (coreInv_missingH1Stage _ _
        (coreInv_headingsStage _ _ _ (coreInv_imagesStage _ _ _
          (coreInv_elemMetaStage _ _ (coreInv_elemTitleStage _ _ coreInv_init)))))))
  · rw [finalizeStage_analyzed, finalizeStage_total,
      paragraphsStage_analyzed, paragraphsStage_total,
      linksStage_analyzed, linksStage_total,
      missingH1Stage_analyzed, missingH1Stage_total,
      headingsStage_analyzed, headingsStage_total,
      imagesStage_analyzed, imagesStage_total,
      elemMetaStage_analyzed, elemMetaStage_total,
      elemTitleStage_analyzed, elemTitleStage_total]
    rfl
  · exact finalize_scores _

/-- C3: for every input, the Element Analyzer returns exactly six
SectionAnalysis records named Header, Navigation, Main Content, Sidebar,
Footer, General with fixed importance weights 8, 7, 10, 5, 4, 6, every
score lies in the 0 to 100 range after the final clamp, and
analyzedElements equals totalElements (the title and meta-description
inspections each add one to both counters unconditionally; every image,
heading, link and paragraph found adds one to both). -/
theorem c3_six_sections_invariants (d : Doc) (url : String) :
    (analyzePageElements d url).sectionAnalysis.map (fun s => (s.name, s.importance)) =
      [("Header", 8), ("Navigation", 7), ("Main Content", 10), ("Sidebar", 5),
       ("Footer", 4), ("General", 6)] ∧
    ((analyzePageElements d url).sectionAnalysis.all
      (fun s => decide (0 ≤ s.score) && decide (s.score ≤ 100))) = true ∧
    (analyzePageElements d url).analyzedElements =
      (analyzePageElements d url).totalElements := by
  obtain ⟨st, heq, hinv, hcnt, hsc⟩ := analyzePageElements_state d url
  rw [heq]
  exact ⟨hinv.1, hsc, hcnt⟩

/-- C10: every ElementIssue in the flat list lands in exactly one section
record — each record's issue list is precisely the sublist of the flat list
whose capitalized section label is the record's name, and every issue's
label is one of the six record names, so the six per-section lists together
contain exactly the flat issues, each exactly once. -/
theorem c10_issue_distribution (d : Doc) (url : String) :
    (analyzePageElements d url).sectionAnalysis.map (fun s => (s.name, s.issues)) =
      sectionNames.map
        (fun n => (n, filtOf (analyzePageElements d url).elementIssues n)) ∧
    ((analyzePageElements d url).elementIssues.all
      (fun i => sectionNames.contains (capitalizeFirstLetter i.«section»))) = true := by
  obtain ⟨st, heq, hinv, hcnt, hsc⟩ := analyzePageElements_state d url
  rw [heq]
  refine ⟨hinv.2, ?_⟩
  rw [List.all_eq_true]
  intro i hi
  cases h : i.«section» <;> rfl

/-! ## The link classification and the no-throw condition -/

theorem classifyLink_ok (url href : String) (h : validRefUrl url) :
    (classifyLink url href).isOk = true := by
  unfold classifyLink
  rcases h with rfl | hs
  · repeat' split
    all_goals simp_all [Except.isOk, Except.toBool]
  · rw [Option.isSome_iff_exists] at hs
    obtain ⟨host, hu⟩ := hs
    rw [hu]
    repeat' split
    all_goals simp_all [Except.isOk, Except.toBool]

theorem countLinksAux_ok (url : String) (h : validRefUrl url) :
    ∀ (hs : List String) (acc : Nat × Nat),
      (countLinksAux url acc hs).isOk = true := by
  intro hs
  induction hs with
  | nil => intro acc; rfl
  | cons x xs ih =>
    intro acc
    unfold countLinksAux
    have hx := classifyLink_ok url x h
    cases hc : classifyLink url x with
    | error e => rw [hc] at hx; simp [Except.isOk, Except.toBool] at hx
    | ok c =>
      cases c with
      | none => exact ih _
      | some lc => cases lc <;> exact ih _

/-- C1 amended: the Element Analyzer never throws and always returns its six
section records; the Document Analyzer never throws provided the reference
url is empty or accepted by the URL constructor (with a non-empty rejected
url and a link whose href starts with neither # nor /, the constructor call
inside the link loop throws); a document with no recognizable elements
degrades to empty extraction: empty title and description, no keywords, no
Open Graph entries, zero heading, image and link counts. -/
theorem c1_amended_no_throw (d : Doc) (url : String) (h : validRefUrl url) :
    (analyzeHtmlContent d url).isOk = true ∧
    (analyzePageElements d url).sectionAnalysis.length = 6 ∧
    (∀ r : HtmlAnalysisResult, analyzeHtmlContent [] url = .ok r →
      r.title = "" ∧ r.description = "" ∧ r.keywords = [] ∧ r.ogTags = [] ∧
      r.headings.h1 = 0 ∧ r.images.total = 0 ∧ r.links.total = 0) := by
  refine ⟨?_, ?_, ?_⟩
  · unfold analyzeHtmlContent
    have hok := countLinksAux_ok url h (docHrefs d) (0, 0)
    cases hc : countLinksAux url (0, 0) (docHrefs d) with
    | error e => rw [hc] at hok; simp [Except.isOk, Except.toBool] at hok
    | ok p =>
      obtain ⟨i, e⟩ := p
      rfl
  · obtain ⟨st, heq, hinv, hcnt, hsc⟩ := analyzePageElements_state d url
    rw [heq]
    have hlen := congrArg List.length hinv.1
    simpa using hlen
  · intro r hr
    have hbase : (analyzeHtmlContent [] url).toOption.map
        (fun r => (r.title, r.description, r.keywords, r.ogTags,
          r.headings.h1, r.images.total, r.links.total)) =
        some ("", "", [], [], 0, 0, 0) := rfl
    rw [hr] at hbase
    simp only [Except.toOption, Option.map_some', Option.some.injEq,
      Prod.mk.injEq] at hbase
    exact hbase

/-- Witness for the amended C1 at a concrete document and a concrete valid
reference url. -/
theorem c1_amended_no_throw_witness :
    (analyzeHtmlContent plainLinkDoc "https://example.com/page").isOk = true ∧
    (analyzePageElements plainLinkDoc "https://example.com/page").sectionAnalysis.length = 6 ∧
    (∀ r : HtmlAnalysisResult,
      analyzeHtmlContent [] "https://example.com/page" = .ok r →
      r.title = "" ∧ r.description = "" ∧ r.keywords = [] ∧ r.ogTags = [] ∧
      r.headings.h1 = 0 ∧ r.images.total = 0 ∧ r.links.total = 0) :=
  c1_amended_no_throw plainLinkDoc "https://example.com/page" (Or.inr (by decide))

theorem classifyLink_eq (url href : String) (h : validRefUrl url) :
    classifyLink url href =
      .ok (if linkIsInternal url href then some LinkClass.internal
           else if linkIsExternal url href then some LinkClass.external
           else none) := by
  rcases h with rfl | hs
  · cases hA1 : strStartsWith href "#" <;>
      cases hA2 : strStartsWith href "/" <;>
        cases hB : strStartsWith href "http" <;>
          simp [classifyLink, linkIsInternal, linkIsExternal, hA1, hA2, hB]
  · have hne : url ≠ "" := by
      intro h'
      subst h'
      simp [urlHostname, strStartsWith, List.isPrefixOf] at hs
    rw [Option.isSome_iff_exists] at hs
    obtain ⟨host, hu⟩ := hs
    cases hA1 : strStartsWith href "#" <;>
      cases hA2 : strStartsWith href "/" <;>
        cases hC : strContains href host <;>
          cases hB : strStartsWith href "http" <;>
            simp [classifyLink, linkIsInternal, linkIsExternal, hA1, hA2, hB, hC,
              hu, bne_iff_ne, hne]

theorem countLinksAux_eq (url : String) (h : validRefUrl url) :
    ∀ (hs : List String) (acc : Nat × Nat),
      countLinksAux url acc hs =
        .ok (acc.1 + hs.countP (fun x => linkIsInternal url x),
             acc.2 + hs.countP (fun x => linkIsExternal url x)) := by
  intro hs
  induction hs with
  | nil => intro acc; simp [countLinksAux, List.countP_nil]
  | cons x xs ih =>
    intro acc
    unfold countLinksAux
    rw [classifyLink_eq url x h]
    by_cases hi : linkIsInternal url x = true
    · have he : linkIsExternal url x = false := by
        unfold linkIsExternal
        rw [hi]
        rfl
      simp only [hi, if_true, ih, List.countP_cons, he]
      simp
      omega
    · rw [Bool.not_eq_true] at hi
      by_cases hx : linkIsExternal url x = true
      · simp only [hi, hx, ih, List.countP_cons]
        simp
        omega
      · rw [Bool.not_eq_true] at hx
        simp only [hi, hx, ih, List.countP_cons]
        simp

theorem countP_add_le {α : Type} (p q : α → Bool)
    (hpq : ∀ a, p a = true → q a = false) :
    ∀ l : List α, l.countP p + l.countP q ≤ l.length := by
  intro l
  induction l with
  | nil => simp
  | cons x xs ih =>
    rw [List.countP_cons, List.countP_cons, List.length_cons]
    by_cases hx : p x = true
    · simp [hx, hpq x hx]
      omega
    · rw [Bool.not_eq_true] at hx
      by_cases hq : q x = true
      · simp [hx, hq]
        omega
      · rw [Bool.not_eq_true] at hq
        simp [hx, hq]
        omega

/-- C4 amended: whenever the Document Analyzer returns (empty or parseable
reference url), a link is counted internal exactly when its href starts
with a hash or a slash, or the reference url is non-empty and the href
contains its hostname; it is counted external exactly when it is not
internal and starts with http; links with neither property (bare relative
paths) are counted in the total but in neither class, so internal +
external is at most — not always equal to — the number of links with an
href. -/
theorem c4_amended_link_partition (d : Doc) (url : String) (h : validRefUrl url)
    (r : HtmlAnalysisResult) (hr : analyzeHtmlContent d url = .ok r) :
    r.links.total = (docHrefs d).length ∧
    r.links.internal = (docHrefs d).countP (fun x => linkIsInternal url x) ∧
    r.links.external = (docHrefs d).countP (fun x => linkIsExternal url x) ∧
    r.links.internal + r.links.external ≤ r.links.total := by
  unfold analyzeHtmlContent at hr
  rw [countLinksAux_eq url h] at hr
  simp only [Except.ok.injEq] at hr
  subst hr
  refine ⟨rfl, by simp, by simp, ?_⟩
  simp only
  have hd := countP_add_le (fun x => linkIsInternal url x)
    (fun x => linkIsExternal url x)
    (fun a ha => by
      have ha' : linkIsInternal url a = true := ha
      simp [linkIsExternal, ha']) (docHrefs d)
  simpa using hd

/-- Witness for the amended C4 on a document with three internal links, one
external link and one unclassified relative link. -/
theorem c4_amended_link_partition_witness :
    linkPartitionResult.links.total = (docHrefs linkPartitionDoc).length ∧
    linkPartitionResult.links.internal =
      (docHrefs linkPartitionDoc).countP
        (fun x => linkIsInternal "https://example.com/" x) ∧
    linkPartitionResult.links.external =
      (docHrefs linkPartitionDoc).countP
        (fun x => linkIsExternal "https://example.com/" x) ∧
    linkPartitionResult.links.internal + linkPartitionResult.links.external ≤
      linkPartitionResult.links.total :=
  c4_amended_link_partition linkPartitionDoc "https://example.com/"
    (Or.inr (by decide)) linkPartitionResult rfl

end SeoChecker
